import Mathlib

/-!
# AuthKit script-tag PKCE flow — verification of the specification

A shallow embedding of the browser-resident OAuth 2.0 PKCE flow
(`src/pkce.ts`, `src/urls.ts`, `src/token.ts`, `src/session.ts`,
`src/authkit.ts`) and proofs of the specification's claims about it.

Modelling conventions:
* Randomness (`crypto.getRandomValues`) becomes an explicit byte-list input.
* `Date.now()` becomes an explicit `now : Int` parameter (milliseconds).
* Browser storage slots become `Option` values threaded through functions.
* JavaScript `null`/`undefined` returns become `Option.none`; functions that
  swallow exceptions with `try/catch` are total functions into `Option`.
* JS arithmetic on a missing (`undefined`) field yields `NaN`, and every
  `NaN > x` comparison is `false`; where the source compares against a
  possibly-missing field, the embedding makes that explicit.
-/

namespace AuthKit

/-! ## Data model (`src/types.ts`) -/

/-- The PKCE proof bundle produced by `createPkceBundle` (`PKCEBundle`). -/
structure PKCEBundle where
  state : String
  codeVerifier : String
  codeChallenge : String
  deriving DecidableEq, Repr

/-- The normalized user shape (`AuthKitUser`): `sub` always present, the
optional fields as `Option` (JS `undefined` = `none`). -/
structure AuthKitUser where
  sub : String
  email : String
  firstName : Option String
  lastName : Option String
  profilePictureUrl : Option String
  deriving DecidableEq, Repr

/-- The `user` object inside the provider's token response
(`TokenResponse.user`); nullable fields are `Option` (JS `null` = `none`). -/
structure TokenUser where
  id : String
  email : String
  first_name : Option String
  last_name : Option String
  email_verified : Bool
  profile_picture_url : Option String
  created_at : String
  updated_at : String
  deriving DecidableEq, Repr

/-- The provider's 2xx JSON response to the code exchange (`TokenResponse`). -/
structure TokenResponse where
  access_token : String
  refresh_token : Option String
  user : TokenUser
  deriving DecidableEq, Repr

/-- The durable session slot contents (`StoredSession`). -/
structure StoredSession where
  accessToken : String
  user : AuthKitUser
  storedAt : Int
  deriving DecidableEq, Repr

/-- The host configuration (`AuthKitConfig`). -/
structure AuthKitConfig where
  clientId : String
  redirectUri : String
  apiBaseUrl : String
  devMode : Bool
  autoCallback : Bool
  deriving DecidableEq, Repr

/-! ## PKCE transient storage (`src/pkce.ts`, lines 36–71)

The slot holds a JSON string.  `retrievePkce` reads it with `JSON.parse`
inside `try/catch` and then looks at the `state`, `codeVerifier` and
`createdAt` fields.  The embedding keeps exactly the observations the code
makes: either the raw text fails to parse (`RawSlot.invalidJson`), or it
parses and each of the three fields read by the code is present or absent.
A present `state`/`codeVerifier` is a string (the code writes only strings
there); `createdAt`, when present, is a numeric timestamp. -/

/-- The three fields of the stored proof JSON that `retrievePkce` reads;
each may be missing, since arbitrary JSON can sit in the slot. -/
structure StoredPkce where
  state : Option String
  codeVerifier : Option String
  createdAt : Option Int
  deriving DecidableEq, Repr

/-- Contents of the `authkit:pkce` sessionStorage slot: text that is not
JSON, or parsed JSON projected to the fields the code reads. -/
inductive RawSlot where
  | invalidJson : RawSlot
  | json : StoredPkce → RawSlot
  deriving DecidableEq, Repr

/-- What `retrievePkce` hands back on success. -/
structure RetrievedPkce where
  state : String
  codeVerifier : String
  deriving DecidableEq, Repr

/-- `PKCE_MAX_AGE_MS = 10 * 60 * 1000`. -/
def PKCE_MAX_AGE_MS : Int := 10 * 60 * 1000

/-- JS truthiness of a possibly-missing string field (`!data.state`):
falsy when the field is missing or the empty string. -/
def truthyStr : Option String → Bool
  | none => false
  | some s => s ≠ ""

/-- `storePkce` (lines 36–45): overwrite the slot with
`{state, codeVerifier, createdAt: Date.now()}`. -/
def storePkce (bundle : PKCEBundle) (now : Int) : Option RawSlot :=
  some (RawSlot.json
    { state := some bundle.state
      codeVerifier := some bundle.codeVerifier
      createdAt := some now })

/-- `clearPkce` (lines 69–71): remove the slot. -/
def clearPkce : Option RawSlot := none

/-- `retrievePkce` (lines 47–67).  Returns the result together with the
slot contents after the call (the call clears the slot only on expiry).
When `createdAt` is missing, `Date.now() - data.createdAt` is `NaN` in JS
and `NaN > PKCE_MAX_AGE_MS` is `false`, so the expiry branch is not taken:
the embedding writes that comparison out by cases on the field. -/
def retrievePkce (slot : Option RawSlot) (now : Int) :
    Option RetrievedPkce × Option RawSlot :=
  match slot with
  | none => (none, slot)
  | some RawSlot.invalidJson => (none, slot)
  | some (RawSlot.json data) =>
    if ¬ truthyStr data.state ∨ ¬ truthyStr data.codeVerifier then
      (none, slot)
    else
      let expired : Bool :=
        match data.createdAt with
        | some t => now - t > PKCE_MAX_AGE_MS
        | none => false
      if expired then
        (none, clearPkce)
      else
        (some { state := data.state.getD ""
                codeVerifier := data.codeVerifier.getD "" }, slot)

/-! ## Proof-material generation (`src/pkce.ts`, lines 6–34)

`crypto.getRandomValues` becomes an explicit byte-list input;
`crypto.subtle.digest("SHA-256", ·)` is embedded as FIPS 180-4 SHA-256
over byte lists (32-bit words as `Nat` wrapped modulo `2^32`);
`TextEncoder().encode` is UTF-8; `btoa` is standard base64 with `=`
padding over the byte values of the binary string. -/

/-- The 66-character unreserved alphabet `randomString` draws from. -/
def pkceChars : List Char :=
  "ABCDEFGHIJKLMNOPQRSTUVWXYZabcdefghijklmnopqrstuvwxyz0123456789-._~".toList

/-- `randomString` (lines 6–12): map each random byte to a character of
the alphabet by reducing it modulo the alphabet length. -/
def randomString (randomBytes : List Nat) : String :=
  String.mk (randomBytes.map fun b => pkceChars.getD (b % pkceChars.length) 'A')

/-- UTF-8 bytes of one scalar value (`TextEncoder`). -/
def utf8EncodeChar (c : Char) : List Nat :=
  let n := c.toNat
  if n < 0x80 then [n]
  else if n < 0x800 then
    [0xC0 ||| (n >>> 6), 0x80 ||| (n &&& 0x3F)]
  else if n < 0x10000 then
    [0xE0 ||| (n >>> 12), 0x80 ||| ((n >>> 6) &&& 0x3F), 0x80 ||| (n &&& 0x3F)]
  else
    [0xF0 ||| (n >>> 18), 0x80 ||| ((n >>> 12) &&& 0x3F),
     0x80 ||| ((n >>> 6) &&& 0x3F), 0x80 ||| (n &&& 0x3F)]

/-- `TextEncoder().encode`: UTF-8 bytes of a string. -/
def utf8Bytes (s : String) : List Nat :=
  (s.toList.map utf8EncodeChar).flatten

/-- Rotate a 32-bit word right by `n`. -/
def rotr32 (n x : Nat) : Nat :=
  ((x <<< (32 - n)) ||| (x >>> n)) &&& 0xFFFFFFFF

/-- SHA-256 round constants `K[0..63]` (FIPS 180-4 §4.2.2), written in
decimal (`0x428a2f98` is `1116352408`, and so on). -/
def sha256K : List Nat :=
  [1116352408, 1899447441, 3049323471, 3921009573, 961987163, 1508970993,
   2453635748, 2870763221, 3624381080, 310598401, 607225278, 1426881987,
   1925078388, 2162078206, 2614888103, 3248222580, 3835390401, 4022224774,
   264347078, 604807628, 770255983, 1249150122, 1555081692, 1996064986,
   2554220882, 2821834349, 2952996808, 3210313671, 3336571891, 3584528711,
   113926993, 338241895, 666307205, 773529912, 1294757372, 1396182291,
   1695183700, 1986661051, 2177026350, 2456956037, 2730485921, 2820302411,
   3259730800, 3345764771, 3516065817, 3600352804, 4094571909, 275423344,
   430227734, 506948616, 659060556, 883997877, 958139571, 1322822218,
   1537002063, 1747873779, 1955562222, 2024104815, 2227730452, 2361852424,
   2428436474, 2756734187, 3204031479, 3329325298]

/-- SHA-256 initial hash value `H⁰` (FIPS 180-4 §5.3.3), in decimal
(`0x6a09e667` is `1779033703`, and so on). -/
def sha256H0 : List Nat :=
  [1779033703, 3144134277, 1013904242, 2773480762,
   1359893119, 2600822924, 528734635, 1541459225]

/-- Pad a byte message to a multiple of 64 bytes: `0x80`, zeros, then the
bit length as 8 big-endian bytes. -/
def sha256Pad (msg : List Nat) : List Nat :=
  let l := msg.length
  let zeros := (120 - ((l + 1) % 64)) % 64
  msg ++ [0x80] ++ List.replicate zeros 0 ++
    (List.range 8).map fun i => ((8 * l) >>> (8 * (7 - i))) &&& 0xFF

/-- Big-endian 32-bit word from (up to) 4 bytes. -/
def beWord (bs : List Nat) : Nat :=
  bs.foldl (fun acc b => acc * 256 + b) 0

/-- Extend 16 message words to the 64-word schedule. -/
def sha256Schedule (w0 : List Nat) : List Nat :=
  (List.range 48).foldl
    (fun w _ =>
      let t := w.length
      let s0 := rotr32 7 (w.getD (t - 15) 0) ^^^ rotr32 18 (w.getD (t - 15) 0) ^^^
        (w.getD (t - 15) 0 >>> 3)
      let s1 := rotr32 17 (w.getD (t - 2) 0) ^^^ rotr32 19 (w.getD (t - 2) 0) ^^^
        (w.getD (t - 2) 0 >>> 10)
      w ++ [(s1 + w.getD (t - 7) 0 + s0 + w.getD (t - 16) 0) % 4294967296])
    w0

/-- One SHA-256 compression of a 64-byte block into the running hash. -/
def sha256Compress (hs : List Nat) (block : List Nat) : List Nat :=
  let w := sha256Schedule ((List.range 16).map fun i => beWord ((block.drop (4 * i)).take 4))
  let step := fun (s : Nat × Nat × Nat × Nat × Nat × Nat × Nat × Nat) (kw : Nat × Nat) =>
    let (a, b, c, d, e, f, g, h) := s
    let (k, wt) := kw
    let bsig1 := rotr32 6 e ^^^ rotr32 11 e ^^^ rotr32 25 e
    let ch := (e &&& f) ^^^ ((0xFFFFFFFF ^^^ e) &&& g)
    let t1 := (h + bsig1 + ch + k + wt) % 4294967296
    let bsig0 := rotr32 2 a ^^^ rotr32 13 a ^^^ rotr32 22 a
    let maj := (a &&& b) ^^^ (a &&& c) ^^^ (b &&& c)
    let t2 := (bsig0 + maj) % 4294967296
    ((t1 + t2) % 4294967296, a, b, c, (d + t1) % 4294967296, e, f, g)
  let init := (hs.getD 0 0, hs.getD 1 0, hs.getD 2 0, hs.getD 3 0,
               hs.getD 4 0, hs.getD 5 0, hs.getD 6 0, hs.getD 7 0)
  let r := (sha256K.zip w).foldl step init
  [(hs.getD 0 0 + r.1) % 4294967296,
   (hs.getD 1 0 + r.2.1) % 4294967296,
   (hs.getD 2 0 + r.2.2.1) % 4294967296,
   (hs.getD 3 0 + r.2.2.2.1) % 4294967296,
   (hs.getD 4 0 + r.2.2.2.2.1) % 4294967296,
   (hs.getD 5 0 + r.2.2.2.2.2.1) % 4294967296,
   (hs.getD 6 0 + r.2.2.2.2.2.2.1) % 4294967296,
   (hs.getD 7 0 + r.2.2.2.2.2.2.2) % 4294967296]

/-- SHA-256 digest (32 bytes) of a byte message
(`crypto.subtle.digest("SHA-256", ·)`). -/
def sha256 (msg : List Nat) : List Nat :=
  let padded := sha256Pad msg
  let blocks := (List.range (padded.length / 64)).map fun i =>
    (padded.drop (64 * i)).take 64
  let hs := blocks.foldl sha256Compress sha256H0
  (hs.map fun h => (List.range 4).map fun i => (h >>> (8 * (3 - i))) &&& 0xFF).flatten

/-- The standard base64 alphabet `btoa` emits. -/
def b64Chars : List Char :=
  "ABCDEFGHIJKLMNOPQRSTUVWXYZabcdefghijklmnopqrstuvwxyz0123456789+/".toList

/-- The base64 digit for a 6-bit value. -/
def b64Char (n : Nat) : Char := b64Chars.getD n 'A'

/-- Base64-encode bytes in 3-byte groups, `=`-padding the tail (`btoa`
applied to the binary string built by `String.fromCharCode`). -/
def base64Chunks : List Nat → List Char
  | b0 :: b1 :: b2 :: rest =>
    let n := b0 * 65536 + b1 * 256 + b2
    b64Char ((n >>> 18) &&& 63) :: b64Char ((n >>> 12) &&& 63) ::
      b64Char ((n >>> 6) &&& 63) :: b64Char (n &&& 63) :: base64Chunks rest
  | [b0, b1] =>
    let n := b0 * 65536 + b1 * 256
    [b64Char ((n >>> 18) &&& 63), b64Char ((n >>> 12) &&& 63),
     b64Char ((n >>> 6) &&& 63), '=']
  | [b0] =>
    let n := b0 * 65536
    [b64Char ((n >>> 18) &&& 63), b64Char ((n >>> 12) &&& 63), '=', '=']
  | [] => []

/-- `btoa` on the binary string holding these byte values. -/
def btoaBytes (bytes : List Nat) : String := String.mk (base64Chunks bytes)

/-- `base64UrlEncode` (`src/pkce.ts`, lines 14–23): `btoa`, then
`+` → `-`, `/` → `_`, and trailing `=` stripped. -/
def base64UrlEncode (bytes : List Nat) : String :=
  String.mk ((((btoaBytes bytes).toList.map fun c =>
    if c == '+' then '-' else if c == '/' then '_' else c).reverse.dropWhile
      (· == '=')).reverse)

/-- `createPkceBundle` (lines 25–34): the two `crypto.getRandomValues`
draws (64 bytes for the verifier, 32 for the state) are the explicit
inputs. -/
def createPkceBundle (verifierBytes stateBytes : List Nat) : PKCEBundle :=
  let codeVerifier := randomString verifierBytes
  let state := randomString stateBytes
  let codeChallenge := base64UrlEncode (sha256 (utf8Bytes codeVerifier))
  { state := state, codeVerifier := codeVerifier, codeChallenge := codeChallenge }

/-! ## URLs (`src/urls.ts`)

A URL is modelled as its origin, path, and the `URLSearchParams` view of its
query string: an ordered list of key/value pairs.  `searchParams.set` on a
fresh key appends; all keys the builder sets are distinct, so the list is
exactly the appended pairs.  `searchParams.get` returns the first value for
the key, `has` its presence. -/

/-- A URL as the code observes it: origin, pathname, search parameters. -/
structure Url where
  base : String
  path : String
  query : List (String × String)
  deriving DecidableEq, Repr

/-- `URLSearchParams.get`: first value bound to the key, if any. -/
def getParam (q : List (String × String)) (k : String) : Option String :=
  (q.find? fun p => p.fst == k).map Prod.snd

/-- The caller-supplied parameters of `createAuthorizeUrl`; optional
parameters absent (`undefined`) are `none`. -/
structure AuthorizeParams where
  codeChallenge : String
  state : String
  screenHint : Option String
  loginHint : Option String
  organizationId : Option String
  invitationToken : Option String
  deriving DecidableEq, Repr

/-- `createAuthorizeUrl` (`src/urls.ts`, lines 3–28): six required
parameters always, then each optional parameter appended only when the JS
truthiness test `if (params.x)` passes — i.e. present and non-empty. -/
def createAuthorizeUrl (config : AuthKitConfig) (params : AuthorizeParams) : Url :=
  let q := [("client_id", config.clientId),
            ("redirect_uri", config.redirectUri),
            ("response_type", "code"),
            ("code_challenge", params.codeChallenge),
            ("code_challenge_method", "S256"),
            ("state", params.state)]
  let q := if truthyStr params.screenHint then
             q ++ [("screen_hint", params.screenHint.getD "")] else q
  let q := if truthyStr params.loginHint then
             q ++ [("login_hint", params.loginHint.getD "")] else q
  let q := if truthyStr params.organizationId then
             q ++ [("organization_id", params.organizationId.getD "")] else q
  let q := if truthyStr params.invitationToken then
             q ++ [("invitation_token", params.invitationToken.getD "")] else q
  { base := config.apiBaseUrl, path := "/user_management/authorize", query := q }

/-- `createLogoutUrl` (`src/urls.ts`, lines 30–39). -/
def createLogoutUrl (config : AuthKitConfig) (sessionId : String)
    (returnTo : Option String) : Url :=
  let q := [("session_id", sessionId)]
  let q := if truthyStr returnTo then q ++ [("return_to", returnTo.getD "")] else q
  { base := config.apiBaseUrl, path := "/user_management/sessions/logout", query := q }

/-! ## Claims decoding (`src/token.ts`, lines 29–41)

`decodeJwtClaims` splits on `.`, maps base64url digits back to base64,
decodes with `atob`, and runs `JSON.parse`, all inside a `try/catch` that
turns every failure into `null`.  `atob` is embedded as the WHATWG
forgiving-base64 decode; `JSON.parse` as a strict RFC 8259 parser into a
`Json` value.  A numeric literal is kept as its lexeme (no claim inspects
the numeric value); a `\uXXXX` escape naming an unpaired surrogate is
approximated by NUL (no claim touches such inputs).  `JSON.parse "null"`
makes the function return `null`, observationally identical to the absent
result, so the embedding collapses a parsed JSON `null` to `none`. -/

/-- A JSON value as `JSON.parse` produces it. -/
inductive Json where
  | null : Json
  | bool : Bool → Json
  | num : String → Json
  | str : String → Json
  | arr : List Json → Json
  | obj : List (String × Json) → Json

/-- Whether a JSON value is an object (a claims record). -/
def Json.isObj : Json → Bool
  | Json.obj _ => true
  | _ => false

/-- Whether a JSON value is the literal `null`. -/
def Json.isNull : Json → Bool
  | Json.null => true
  | _ => false

/-- ASCII whitespace removed by forgiving-base64 decode. -/
def isAsciiWs (c : Char) : Bool :=
  c == ' ' || c == '\t' || c == '\n' || c == '\x0C' || c == '\r'

/-- Index of a character in the base64 alphabet. -/
def b64Val (c : Char) : Option Nat := b64Chars.findIdx? (· == c)

/-- Decode 6-bit groups to bytes, discarding the 2 or 4 leftover bits of a
3- or 2-digit tail (WHATWG forgiving-base64, step 10). -/
def b64DecodeGroups : List Nat → List Nat
  | a :: b :: c :: d :: rest =>
    let n := ((a * 64 + b) * 64 + c) * 64 + d
    (n >>> 16) :: ((n >>> 8) &&& 0xFF) :: (n &&& 0xFF) :: b64DecodeGroups rest
  | [a, b, c] =>
    let n := (a * 64 + b) * 64 + c
    [n >>> 10, (n >>> 2) &&& 0xFF]
  | [a, b] =>
    [(a * 64 + b) >>> 4]
  | [_] => []
  | [] => []

/-- `atob`: forgiving-base64 decode to bytes — strip ASCII whitespace,
allow one or two trailing `=` when the length is a multiple of 4, reject a
length ≡ 1 (mod 4) and any character outside the alphabet. -/
def atob (s : String) : Option (List Nat) :=
  let data := s.toList.filter fun c => ¬ isAsciiWs c
  let data :=
    if data.length % 4 == 0 then
      let d1 := if data.getLast? == some '=' then data.dropLast else data
      if d1.getLast? == some '=' then d1.dropLast else d1
    else data
  if data.length % 4 == 1 then none
  else (data.mapM b64Val).map b64DecodeGroups

/-- JSON insignificant whitespace (RFC 8259 §2). -/
def isJsonWs (c : Char) : Bool :=
  c == ' ' || c == '\t' || c == '\n' || c == '\r'

/-- Skip JSON whitespace. -/
def skipWs (cs : List Char) : List Char := cs.dropWhile isJsonWs

/-- ASCII decimal digit. -/
def isDigit (c : Char) : Bool := '0' ≤ c && c ≤ '9'

/-- Value of a hex digit, if it is one (lower- or upper-case). -/
def hexVal (c : Char) : Option Nat :=
  let n := c.toNat
  if 48 ≤ n ∧ n ≤ 57 then some (n - 48)
  else if 97 ≤ n ∧ n ≤ 102 then some (n - 87)
  else if 65 ≤ n ∧ n ≤ 70 then some (n - 55)
  else none

/-- Parse the body of a JSON string after its opening quote, handling the
escape sequences of RFC 8259 and rejecting raw control characters. -/
def parseStrChars : Nat → List Char → Option (List Char × List Char)
  | 0, _ => none
  | _, [] => none
  | fuel + 1, c :: rest =>
    if c == '"' then some ([], rest)
    else if c == '\\' then
      match rest with
      | [] => none
      | e :: rest2 =>
        let simpleEsc : Option Char :=
          if e == '"' then some '"'
          else if e == '\\' then some '\\'
          else if e == '/' then some '/'
          else if e == 'b' then some '\x08'
          else if e == 'f' then some '\x0C'
          else if e == 'n' then some '\n'
          else if e == 'r' then some '\r'
          else if e == 't' then some '\t'
          else none
        match simpleEsc with
        | some ch =>
          (parseStrChars fuel rest2).map fun (body, r) => (ch :: body, r)
        | none =>
          if e == 'u' then
            match rest2 with
            | h1 :: h2 :: h3 :: h4 :: rest3 =>
              match hexVal h1, hexVal h2, hexVal h3, hexVal h4 with
              | some v1, some v2, some v3, some v4 =>
                let code := ((v1 * 16 + v2) * 16 + v3) * 16 + v4
                (parseStrChars fuel rest3).map fun (body, r) =>
                  (Char.ofNat code :: body, r)
              | _, _, _, _ => none
            | _ => none
          else none
    else if c.toNat < 0x20 then none
    else (parseStrChars fuel rest).map fun (body, r) => (c :: body, r)

/-- Parse a JSON number literal, keeping its lexeme. -/
def parseNumber (cs : List Char) : Option (String × List Char) :=
  let (sign, cs1) : List Char × List Char :=
    match cs with
    | '-' :: rest => (['-'], rest)
    | _ => ([], cs)
  match cs1 with
  | c :: rest =>
    if ¬ isDigit c then none
    else
      let (intPart, afterInt) : List Char × List Char :=
        if c == '0' then ([c], rest)
        else (c :: rest.takeWhile isDigit, rest.dropWhile isDigit)
      let fracStep : Option (List Char × List Char) :=
        match afterInt with
        | '.' :: d :: ds =>
          if isDigit d then
            some ('.' :: d :: ds.takeWhile isDigit, ds.dropWhile isDigit)
          else none
        | '.' :: [] => none
        | _ => some ([], afterInt)
      match fracStep with
      | none => none
      | some (fracPart, afterFrac) =>
        let expStep : Option (List Char × List Char) :=
          match afterFrac with
          | e :: tl =>
            if e == 'e' || e == 'E' then
              let (sgn, tl2) : List Char × List Char :=
                match tl with
                | s :: tl2 => if s == '+' || s == '-' then ([s], tl2) else ([], tl)
                | [] => ([], [])
              match tl2 with
              | d :: _ =>
                if isDigit d then
                  some (e :: sgn ++ tl2.takeWhile isDigit, tl2.dropWhile isDigit)
                else none
              | [] => none
            else some ([], afterFrac)
          | [] => some ([], afterFrac)
        match expStep with
        | none => none
        | some (expPart, afterExp) =>
          some (String.mk (sign ++ intPart ++ fracPart ++ expPart), afterExp)
  | [] => none

mutual

/-- Parse one JSON value (fuel-bounded recursive descent). -/
def parseValue : Nat → List Char → Option (Json × List Char)
  | 0, _ => none
  | fuel + 1, cs =>
    match cs with
    | [] => none
    | c :: rest =>
      if c == '"' then
        (parseStrChars (fuel + 1) rest).map fun (body, r) =>
          (Json.str (String.mk body), r)
      else if c == '{' then
        match skipWs rest with
        | '}' :: r => some (Json.obj [], r)
        | cs2 => (parseMembers fuel cs2).map fun (ms, r) => (Json.obj ms, r)
      else if c == '[' then
        match skipWs rest with
        | ']' :: r => some (Json.arr [], r)
        | cs2 => (parseElements fuel cs2).map fun (vs, r) => (Json.arr vs, r)
      else
        match cs with
        | 'n' :: 'u' :: 'l' :: 'l' :: r => some (Json.null, r)
        | 't' :: 'r' :: 'u' :: 'e' :: r => some (Json.bool true, r)
        | 'f' :: 'a' :: 'l' :: 's' :: 'e' :: r => some (Json.bool false, r)
        | _ => (parseNumber cs).map fun (lit, r) => (Json.num lit, r)

/-- Parse the members of an object, positioned at the first key. -/
def parseMembers : Nat → List Char → Option (List (String × Json) × List Char)
  | 0, _ => none
  | fuel + 1, cs =>
    match cs with
    | '"' :: rest =>
      match parseStrChars (fuel + 1) rest with
      | none => none
      | some (keyChars, afterKey) =>
        match skipWs afterKey with
        | ':' :: afterColon =>
          match parseValue fuel (skipWs afterColon) with
          | none => none
          | some (v, afterVal) =>
            let key := String.mk keyChars
            match skipWs afterVal with
            | ',' :: afterComma =>
              (parseMembers fuel (skipWs afterComma)).map fun (ms, r) =>
                ((key, v) :: ms, r)
            | '}' :: r => some ([(key, v)], r)
            | _ => none
        | _ => none
    | _ => none

/-- Parse the elements of an array, positioned at the first element. -/
def parseElements : Nat → List Char → Option (List Json × List Char)
  | 0, _ => none
  | fuel + 1, cs =>
    match parseValue fuel cs with
    | none => none
    | some (v, afterVal) =>
      match skipWs afterVal with
      | ',' :: afterComma =>
        (parseElements fuel (skipWs afterComma)).map fun (vs, r) => (v :: vs, r)
      | ']' :: r => some ([v], r)
      | _ => none

end

/-- `JSON.parse`: one JSON value and nothing but whitespace around it. -/
def jsonParse (s : String) : Option Json :=
  match parseValue (s.length + 1) (skipWs s.toList) with
  | some (v, rest) => if (skipWs rest).isEmpty then some v else none
  | none => none

/-- JS `String.prototype.split` with a one-character separator: split at
every occurrence, keeping empty pieces (`"".split(".")` is `[""]`). -/
def splitChar (sep : Char) : List Char → List (List Char)
  | [] => [[]]
  | c :: rest =>
    let r := splitChar sep rest
    if c == sep then [] :: r
    else
      match r with
      | h :: t => (c :: h) :: t
      | [] => [[c]]

/-- The dot-separated segments of a token (`token.split(".")`). -/
def jwtSegments (token : String) : List (List Char) :=
  splitChar '.' token.toList

/-- `decodeJwtClaims` (`src/token.ts`, lines 29–41): split on `.`, demand
exactly 3 parts, undo the base64url substitutions on the middle part,
`atob`, `JSON.parse`; the surrounding `try/catch` returns `null` on any
failure.  A successfully parsed JSON `null` is returned as the JS value
`null`, which callers cannot tell apart from the failure result, so it is
`none` here too. -/
def decodeJwtClaims (token : String) : Option Json :=
  let parts := jwtSegments token
  if parts.length ≠ 3 then none
  else
    let payload := String.mk ((parts.getD 1 []).map fun c =>
      if c == '-' then '+' else if c == '_' then '/' else c)
    match atob payload with
    | none => none
    | some bytes =>
      match jsonParse (String.mk (bytes.map Char.ofNat)) with
      | none => none
      | some Json.null => none
      | some v => some v

/-! ## Token normalization (`src/token.ts`, lines 43–51) -/

/-- `extractUser`: project the provider's user object to the normalized
shape; `x ?? undefined` maps JS `null` to `undefined`, i.e. `none` to
`none` here. -/
def extractUser (tokenResponse : TokenResponse) : AuthKitUser :=
  { sub := tokenResponse.user.id
    email := tokenResponse.user.email
    firstName := tokenResponse.user.first_name
    lastName := tokenResponse.user.last_name
    profilePictureUrl := tokenResponse.user.profile_picture_url }

/-! ## The orchestrator (`src/authkit.ts`)

`handleCallback` (lines 239–281) and the startup driver (lines 313–327)
are embedded as pure transformers of an explicit application state.  The
network exchange is a suspension point whose outcome is an oracle input
(`ExchangeResult`); issuing the POST is recorded in `exchangeCalls` so
that "no exchange request was made" is a statement about the state.
`console.error` diagnostics are not modelled. -/

/-- A DOM event dispatched on `document` (`authkit:signed-in`,
`authkit:signed-out`, `authkit:ready`), with its user payload. -/
inductive AuthEvent where
  | signedIn : AuthKitUser → AuthEvent
  | signedOut : AuthEvent
  | ready : Option AuthKitUser → AuthEvent
  deriving DecidableEq, Repr

/-- Outcome of the `exchangeCode` POST: a parsed 2xx JSON body, or a
failure (network error, or the `Error` thrown on a non-2xx status). -/
inductive ExchangeResult where
  | success : TokenResponse → ExchangeResult
  | failure : ExchangeResult
  deriving DecidableEq, Repr

/-- The orchestrator-visible application state: the module-level mutable
variables, both storage slots, the history stack (head = visible URL),
the events dispatched so far, and the exchange requests issued so far. -/
structure AppState where
  currentUser : Option AuthKitUser
  currentAccessToken : Option String
  pkceSlot : Option RawSlot
  sessionSlot : Option StoredSession
  history : List Url
  events : List AuthEvent
  exchangeCalls : List (String × String)
  deriving DecidableEq, Repr

/-- `window.location`: the top of the history stack. -/
def AppState.currentUrl (st : AppState) : Url :=
  st.history.headD { base := "", path := "", query := [] }

/-- `history.replaceState`: swap the visible URL without growing the
stack. -/
def AppState.replaceUrl (st : AppState) (u : Url) : AppState :=
  { st with history := u :: st.history.tail }

/-- `dispatchAuthKitEvent`: append to the dispatched-events log. -/
def AppState.emit (st : AppState) (e : AuthEvent) : AppState :=
  { st with events := st.events ++ [e] }

/-- The startup hydration (lines 171–178): module state starts from the
durable session slot; no events dispatched yet, no exchange issued. -/
def initAppState (session : Option StoredSession) (pkce : Option RawSlot)
    (history : List Url) : AppState :=
  { currentUser := session.map StoredSession.user
    currentAccessToken := session.map StoredSession.accessToken
    pkceSlot := pkce
    sessionSlot := session
    history := history
    events := []
    exchangeCalls := [] }

/-- `handleCallback` (lines 239–281): read `code` and `state` from the
visible URL; bail out without `code`; retrieve the proof (which may clear
the slot on expiry); bail out when absent; on state mismatch clear the
proof and stop before any network call; otherwise issue the exchange.  On
success: normalize the user, update module state, persist the session,
clear the proof, blank the URL's query via `replaceState`, dispatch
`signed-in`.  On failure: clear the proof. -/
def handleCallback (st : AppState) (now : Int) (ex : ExchangeResult) : AppState :=
  let url := st.currentUrl
  let code := getParam url.query "code"
  let stateParam := getParam url.query "state"
  match code with
  | none => st
  | some c =>
    match retrievePkce st.pkceSlot now with
    | (none, slot') => { st with pkceSlot := slot' }
    | (some pkce, slot') =>
      let st := { st with pkceSlot := slot' }
      if stateParam ≠ some pkce.state then
        { st with pkceSlot := clearPkce }
      else
        let st := { st with exchangeCalls := st.exchangeCalls ++ [(c, pkce.codeVerifier)] }
        match ex with
        | ExchangeResult.failure => { st with pkceSlot := clearPkce }
        | ExchangeResult.success tokenResponse =>
          let user := extractUser tokenResponse
          let st := { st with
            currentUser := some user
            currentAccessToken := some tokenResponse.access_token
            sessionSlot := some { accessToken := tokenResponse.access_token
                                  user := user
                                  storedAt := now }
            pkceSlot := clearPkce }
          let cleanUrl := { url with query := [] }
          let st := st.replaceUrl cleanUrl
          st.emit (AuthEvent.signedIn user)

/-- Lines 313–318: run the callback and then settle, dispatching `ready`
with whatever `currentUser` is at that point. -/
def processCallbackAndSettle (st : AppState) (now : Int) (ex : ExchangeResult) :
    AppState :=
  let st' := handleCallback st now ex
  st'.emit (AuthEvent.ready st'.currentUser)

/-- `isCallbackUrl` (lines 299–311): the current path equals the
configured redirect path, or the redirect path with a trailing slash
appended, and the URL carries a `code` query parameter. -/
def isCallbackUrl (redirectPath : String) (currentPath : String)
    (query : List (String × String)) : Bool :=
  (currentPath == redirectPath || currentPath == redirectPath ++ "/") &&
    (getParam query "code").isSome

/-- The callback condition as the specification words it: the paths may
differ by a trailing slash carried on either side.  Stated separately so
it can be compared with `isCallbackUrl`, which the code implements. -/
def specCallbackCheck (redirectPath : String) (currentPath : String)
    (query : List (String × String)) : Bool :=
  (currentPath == redirectPath || currentPath == redirectPath ++ "/" ||
      currentPath ++ "/" == redirectPath) &&
    (getParam query "code").isSome

/-- Lines 313–327 in full: settle through the callback path when
automatic handling is on and the URL is a callback, else settle
immediately with the hydrated user. -/
def startupSettle (config : AuthKitConfig) (st : AppState)
    (redirectPath : String) (now : Int) (ex : ExchangeResult) : AppState :=
  if config.autoCallback &&
      isCallbackUrl redirectPath st.currentUrl.path st.currentUrl.query then
    processCallbackAndSettle st now ex
  else
    st.emit (AuthEvent.ready st.currentUser)

/-! ## Supporting lemmas -/

/-- FIPS 180-2 test vector: `SHA-256("abc")`. -/
theorem sha256_abc_vector :
    sha256 (utf8Bytes "abc") =
      [0xba, 0x78, 0x16, 0xbf, 0x8f, 0x01, 0xcf, 0xea,
       0x41, 0x41, 0x40, 0xde, 0x5d, 0xae, 0x22, 0x23,
       0xb0, 0x03, 0x61, 0xa3, 0x96, 0x17, 0x7a, 0x9c,
       0xb4, 0x10, 0xff, 0x61, 0xf2, 0x00, 0x15, 0xad] := rfl

/-- RFC 7636 Appendix B test vector: the code challenge derived from the
example code verifier. -/
theorem sha256_rfc7636_vector :
    base64UrlEncode (sha256 (utf8Bytes "dBjftJeZ4CVP-mB92K27uhbUJU1p1r_wW1gFWFOEjXk"))
      = "E9Melhoa2OwvFrEMTJguCHaoeK1t8URWbuGJSstw-cM" := rfl

/-! ## C4 — proof expiry clears the slot -/

/-- C4: a stored proof with non-empty fields whose `createdAt` lies more
than `PKCE_MAX_AGE_MS` in the past yields absent from `retrievePkce`, and
the slot is cleared as a side effect. -/
theorem retrievePkce_expired (s v : String) (t now : Int)
    (hs : s ≠ "") (hv : v ≠ "")
    (hexp : now - t > PKCE_MAX_AGE_MS) :
    retrievePkce (some (RawSlot.json ⟨some s, some v, some t⟩)) now = (none, none) := by
  simp [retrievePkce, truthyStr, hs, hv, hexp, clearPkce]

/-- C4 witness: a proof persisted 11 minutes ago is expired and the slot
is empty afterward. -/
theorem retrievePkce_expired_witness :
    (660000 : Int) - 0 > PKCE_MAX_AGE_MS ∧
    retrievePkce (some (RawSlot.json ⟨some "st", some "ver", some 0⟩)) 660000
      = (none, none) :=
  ⟨by decide, retrievePkce_expired "st" "ver" 0 660000 (by decide) (by decide) (by decide)⟩

/-! ## C7 — store/retrieve round-trip, retrieve does not consume -/

/-- C7: retrieving immediately after persisting a proof bundle (with the
data model's 32/64-character fields) yields its `state` and
`codeVerifier`, leaves the slot untouched, and a second immediate
retrieve gives the same answer. -/
theorem retrievePkce_after_storePkce (b : PKCEBundle) (now : Int)
    (hs : b.state.length = 32) (hv : b.codeVerifier.length = 64) :
    retrievePkce (storePkce b now) now
        = (some ⟨b.state, b.codeVerifier⟩, storePkce b now) ∧
      retrievePkce (retrievePkce (storePkce b now) now).2 now
        = retrievePkce (storePkce b now) now := by
  have hs' : b.state ≠ "" := by
    intro h
    rw [h] at hs
    simp at hs
  have hv' : b.codeVerifier ≠ "" := by
    intro h
    rw [h] at hv
    simp at hv
  have h1 : retrievePkce (storePkce b now) now
      = (some ⟨b.state, b.codeVerifier⟩, storePkce b now) := by
    simp [retrievePkce, storePkce, truthyStr, hs', hv', PKCE_MAX_AGE_MS]
  exact ⟨h1, by rw [h1]; exact h1⟩

/-- C7 witness: a concrete 32/64-character bundle round-trips and the
second retrieve agrees. -/
theorem retrievePkce_after_storePkce_witness :
    (String.mk (List.replicate 32 'a')).length = 32 ∧
    retrievePkce
        (storePkce ⟨String.mk (List.replicate 32 'a'),
          String.mk (List.replicate 64 'b'), "ch"⟩ 7) 7
      = (some ⟨String.mk (List.replicate 32 'a'), String.mk (List.replicate 64 'b')⟩,
         storePkce ⟨String.mk (List.replicate 32 'a'),
           String.mk (List.replicate 64 'b'), "ch"⟩ 7) :=
  ⟨by decide,
   (retrievePkce_after_storePkce
     ⟨String.mk (List.replicate 32 'a'), String.mk (List.replicate 64 'b'), "ch"⟩ 7
     (by decide) (by decide)).1⟩

/-! ## C10 — a proof without `createdAt` never expires -/

/-- C10: a stored slot with non-empty `state` and `codeVerifier` but no
numeric `createdAt` is returned successfully at any time — the JS expiry
comparison is `NaN > limit`, which is false — and the slot is kept. -/
theorem retrievePkce_missing_createdAt (s v : String) (now : Int)
    (hs : s ≠ "") (hv : v ≠ "") :
    retrievePkce (some (RawSlot.json ⟨some s, some v, none⟩)) now
      = (some ⟨s, v⟩, some (RawSlot.json ⟨some s, some v, none⟩)) := by
  simp [retrievePkce, truthyStr, hs, hv]

/-- C10 witness: such a slot is still returned at an arbitrarily late
time (a billion milliseconds). -/
theorem retrievePkce_missing_createdAt_witness :
    retrievePkce (some (RawSlot.json ⟨some "st", some "ver", none⟩)) 1000000000
      = (some ⟨"st", "ver"⟩, some (RawSlot.json ⟨some "st", some "ver", none⟩)) :=
  retrievePkce_missing_createdAt "st" "ver" 1000000000 (by decide) (by decide)

/-! ## C9 — authorize URL parameters -/

/-- Appending a pair under a different key does not change a lookup. -/
theorem getParam_append_other (q : List (String × String)) (k k' v : String)
    (hk : (k' == k) = false) :
    getParam (q ++ [(k', v)]) k = getParam q k := by
  simp [getParam, List.find?_append, List.find?, hk]

/-- Appending a pair under an absent key makes the lookup find it. -/
theorem getParam_append_hit (q : List (String × String)) (k v : String)
    (h : getParam q k = none) :
    getParam (q ++ [(k, v)]) k = some v := by
  have h' : List.find? (fun p => p.1 == k) q = none := by
    cases hf : List.find? (fun p => p.1 == k) q with
    | none => rfl
    | some p => simp [getParam, hf] at h
  simp [getParam, List.find?_append, List.find?, h']

/-- A conditional append under a different key does not change a lookup. -/
theorem getParam_appendIf_other (q : List (String × String)) (cond : Bool)
    (k k' v : String) (hk : (k' == k) = false) :
    getParam (if cond then q ++ [(k', v)] else q) k = getParam q k := by
  cases cond
  · rfl
  · simpa using getParam_append_other q k k' v hk

/-- A conditional append under an absent key yields it exactly when the
condition holds. -/
theorem getParam_appendIf_self (q : List (String × String)) (cond : Bool)
    (k v : String) (h : getParam q k = none) :
    getParam (if cond then q ++ [(k, v)] else q) k
      = (if cond then some v else none) := by
  cases cond
  · simpa using h
  · simpa using getParam_append_hit q k v h

/-- C9: `createAuthorizeUrl` always carries the six required parameters
with their fixed or supplied values; each optional parameter appears,
with the supplied value, exactly when the caller provides it non-empty,
and is absent when it is omitted or empty. -/
theorem createAuthorizeUrl_spec (config : AuthKitConfig) (params : AuthorizeParams) :
    getParam (createAuthorizeUrl config params).query "client_id" = some config.clientId ∧
    getParam (createAuthorizeUrl config params).query "redirect_uri" = some config.redirectUri ∧
    getParam (createAuthorizeUrl config params).query "response_type" = some "code" ∧
    getParam (createAuthorizeUrl config params).query "code_challenge" = some params.codeChallenge ∧
    getParam (createAuthorizeUrl config params).query "code_challenge_method" = some "S256" ∧
    getParam (createAuthorizeUrl config params).query "state" = some params.state ∧
    (∀ v, params.screenHint = some v → v ≠ "" →
      getParam (createAuthorizeUrl config params).query "screen_hint" = some v) ∧
    (params.screenHint = none ∨ params.screenHint = some "" →
      getParam (createAuthorizeUrl config params).query "screen_hint" = none) ∧
    (∀ v, params.loginHint = some v → v ≠ "" →
      getParam (createAuthorizeUrl config params).query "login_hint" = some v) ∧
    (params.loginHint = none ∨ params.loginHint = some "" →
      getParam (createAuthorizeUrl config params).query "login_hint" = none) ∧
    (∀ v, params.organizationId = some v → v ≠ "" →
      getParam (createAuthorizeUrl config params).query "organization_id" = some v) ∧
    (params.organizationId = none ∨ params.organizationId = some "" →
      getParam (createAuthorizeUrl config params).query "organization_id" = none) ∧
    (∀ v, params.invitationToken = some v → v ≠ "" →
      getParam (createAuthorizeUrl config params).query "invitation_token" = some v) ∧
    (params.invitationToken = none ∨ params.invitationToken = some "" →
      getParam (createAuthorizeUrl config params).query "invitation_token" = none) := by
  simp only [createAuthorizeUrl]
  refine ⟨?_, ?_, ?_, ?_, ?_, ?_, ?_, ?_, ?_, ?_, ?_, ?_, ?_, ?_⟩
  · rw [getParam_appendIf_other _ _ _ _ _ (by decide),
        getParam_appendIf_other _ _ _ _ _ (by decide),
        getParam_appendIf_other _ _ _ _ _ (by decide),
        getParam_appendIf_other _ _ _ _ _ (by decide)]
    rfl
  · rw [getParam_appendIf_other _ _ _ _ _ (by decide),
        getParam_appendIf_other _ _ _ _ _ (by decide),
        getParam_appendIf_other _ _ _ _ _ (by decide),
        getParam_appendIf_other _ _ _ _ _ (by decide)]
    rfl
  · rw [getParam_appendIf_other _ _ _ _ _ (by decide),
        getParam_appendIf_other _ _ _ _ _ (by decide),
        getParam_appendIf_other _ _ _ _ _ (by decide),
        getParam_appendIf_other _ _ _ _ _ (by decide)]
    rfl
  · rw [getParam_appendIf_other _ _ _ _ _ (by decide),
        getParam_appendIf_other _ _ _ _ _ (by decide),
        getParam_appendIf_other _ _ _ _ _ (by decide),
        getParam_appendIf_other _ _ _ _ _ (by decide)]
    rfl
  · rw [getParam_appendIf_other _ _ _ _ _ (by decide),
        getParam_appendIf_other _ _ _ _ _ (by decide),
        getParam_appendIf_other _ _ _ _ _ (by decide),
        getParam_appendIf_other _ _ _ _ _ (by decide)]
    rfl
  · rw [getParam_appendIf_other _ _ _ _ _ (by decide),
        getParam_appendIf_other _ _ _ _ _ (by decide),
        getParam_appendIf_other _ _ _ _ _ (by decide),
        getParam_appendIf_other _ _ _ _ _ (by decide)]
    rfl
  · intro v hv hne
    rw [getParam_appendIf_other _ _ _ _ _ (by decide),
        getParam_appendIf_other _ _ _ _ _ (by decide),
        getParam_appendIf_other _ _ _ _ _ (by decide),
        getParam_appendIf_self _ _ _ _ (by rfl), hv]
    simp [truthyStr, hne]
  · intro h
    rw [getParam_appendIf_other _ _ _ _ _ (by decide),
        getParam_appendIf_other _ _ _ _ _ (by decide),
        getParam_appendIf_other _ _ _ _ _ (by decide),
        getParam_appendIf_self _ _ _ _ (by rfl)]
    rcases h with h | h <;> rw [h] <;> simp [truthyStr]
  · intro v hv hne
    rw [getParam_appendIf_other _ _ _ _ _ (by decide),
        getParam_appendIf_other _ _ _ _ _ (by decide),
        getParam_appendIf_self _ _ _ _
          (by rw [getParam_appendIf_other _ _ _ _ _ (by decide)]; rfl), hv]
    simp [truthyStr, hne]
  · intro h
    rw [getParam_appendIf_other _ _ _ _ _ (by decide),
        getParam_appendIf_other _ _ _ _ _ (by decide),
        getParam_appendIf_self _ _ _ _
          (by rw [getParam_appendIf_other _ _ _ _ _ (by decide)]; rfl)]
    rcases h with h | h <;> rw [h] <;> simp [truthyStr]
  · intro v hv hne
    rw [getParam_appendIf_other _ _ _ _ _ (by decide),
        getParam_appendIf_self _ _ _ _
          (by rw [getParam_appendIf_other _ _ _ _ _ (by decide),
                  getParam_appendIf_other _ _ _ _ _ (by decide)]; rfl), hv]
    simp [truthyStr, hne]
  · intro h
    rw [getParam_appendIf_other _ _ _ _ _ (by decide),
        getParam_appendIf_self _ _ _ _
          (by rw [getParam_appendIf_other _ _ _ _ _ (by decide),
                  getParam_appendIf_other _ _ _ _ _ (by decide)]; rfl)]
    rcases h with h | h <;> rw [h] <;> simp [truthyStr]
  · intro v hv hne
    rw [getParam_appendIf_self _ _ _ _
          (by rw [getParam_appendIf_other _ _ _ _ _ (by decide),
                  getParam_appendIf_other _ _ _ _ _ (by decide),
                  getParam_appendIf_other _ _ _ _ _ (by decide)]; rfl), hv]
    simp [truthyStr, hne]
  · intro h
    rw [getParam_appendIf_self _ _ _ _
          (by rw [getParam_appendIf_other _ _ _ _ _ (by decide),
                  getParam_appendIf_other _ _ _ _ _ (by decide),
                  getParam_appendIf_other _ _ _ _ _ (by decide)]; rfl)]
    rcases h with h | h <;> rw [h] <;> simp [truthyStr]

/-- C9 witness: with `loginHint` provided and the other three optional
parameters omitted, exactly `login_hint` appears, and a required
parameter is present. -/
theorem createAuthorizeUrl_spec_witness :
    getParam (createAuthorizeUrl
        ⟨"client_test123", "https://example.com/callback", "https://api.workos.com", false, true⟩
        ⟨"ch", "st", none, some "user@example.com", none, none⟩).query "login_hint"
      = some "user@example.com" ∧
    getParam (createAuthorizeUrl
        ⟨"client_test123", "https://example.com/callback", "https://api.workos.com", false, true⟩
        ⟨"ch", "st", none, some "user@example.com", none, none⟩).query "screen_hint"
      = none ∧
    getParam (createAuthorizeUrl
        ⟨"client_test123", "https://example.com/callback", "https://api.workos.com", false, true⟩
        ⟨"ch", "st", none, some "user@example.com", none, none⟩).query "client_id"
      = some "client_test123" := by
  obtain ⟨h1, _, _, _, _, _, _, hsh, hlh, _⟩ :=
    createAuthorizeUrl_spec
      ⟨"client_test123", "https://example.com/callback", "https://api.workos.com", false, true⟩
      ⟨"ch", "st", none, some "user@example.com", none, none⟩
  exact ⟨hlh "user@example.com" rfl (by decide), hsh (Or.inl rfl), h1⟩

/-! ## C6 — callback detection -/

/-- C6 counterexample: when the configured redirect path carries the
trailing slash and the current path does not, the spec's
either-direction reading accepts the URL but the code does not. -/
theorem isCallbackUrl_counterexample :
    isCallbackUrl "/cb/" "/cb" [("code", "abc")] = false ∧
    specCallbackCheck "/cb/" "/cb" [("code", "abc")] = true := by decide

/-- C6 as amended: the URL is a callback iff the current path equals the
configured redirect path, optionally with a trailing slash added to the
current path only, and the URL carries a `code` query parameter. -/
theorem isCallbackUrl_iff (redirectPath currentPath : String)
    (query : List (String × String)) :
    isCallbackUrl redirectPath currentPath query = true ↔
      ((currentPath = redirectPath ∨ currentPath = redirectPath ++ "/") ∧
        ∃ v, getParam query "code" = some v) := by
  simp [isCallbackUrl, Option.isSome_iff_exists, Bool.or_eq_true, beq_iff_eq,
    Bool.and_eq_true]

/-! ## C1 — state mismatch during callback processing -/

/-- C1 as amended: when a proof is retrieved but its stored `state`
differs from the URL's `state` parameter, the proof slot is cleared and
no exchange request is issued, and the flow settles with the `ready`
signal carrying the in-memory user as it was before the callback — which
is no user only when no session had been hydrated. -/
theorem handleCallback_state_mismatch (st : AppState) (now : Int)
    (ex : ExchangeResult) (c : String) (pkce : RetrievedPkce)
    (slot' : Option RawSlot)
    (hcode : getParam st.currentUrl.query "code" = some c)
    (hretr : retrievePkce st.pkceSlot now = (some pkce, slot'))
    (hmis : getParam st.currentUrl.query "state" ≠ some pkce.state) :
    (processCallbackAndSettle st now ex).pkceSlot = none ∧
    (processCallbackAndSettle st now ex).exchangeCalls = st.exchangeCalls ∧
    (processCallbackAndSettle st now ex).currentUser = st.currentUser ∧
    (processCallbackAndSettle st now ex).events
      = st.events ++ [AuthEvent.ready st.currentUser] := by
  simp [processCallbackAndSettle, handleCallback, hcode, hretr, hmis,
    clearPkce, AppState.emit]

/-- C1 counterexample: with a prior session hydrated, a state-mismatch
callback still clears the proof and makes no exchange request, but the
`ready` signal carries the hydrated user, not no user as claimed. -/
theorem handleCallback_state_mismatch_counterexample :
    (retrievePkce (initAppState
        (some ⟨"tok", ⟨"u1", "e", none, none, none⟩, 5⟩)
        (some (RawSlot.json ⟨some "AAA", some "ver", some 0⟩))
        [⟨"https://app", "/cb", [("code", "abc"), ("state", "BBB")]⟩]).pkceSlot 100).1
      = some ⟨"AAA", "ver"⟩ ∧
    getParam (initAppState
        (some ⟨"tok", ⟨"u1", "e", none, none, none⟩, 5⟩)
        (some (RawSlot.json ⟨some "AAA", some "ver", some 0⟩))
        [⟨"https://app", "/cb", [("code", "abc"), ("state", "BBB")]⟩]).currentUrl.query "state"
      = some "BBB" ∧
    (processCallbackAndSettle (initAppState
        (some ⟨"tok", ⟨"u1", "e", none, none, none⟩, 5⟩)
        (some (RawSlot.json ⟨some "AAA", some "ver", some 0⟩))
        [⟨"https://app", "/cb", [("code", "abc"), ("state", "BBB")]⟩]) 100
        ExchangeResult.failure).pkceSlot = none ∧
    (processCallbackAndSettle (initAppState
        (some ⟨"tok", ⟨"u1", "e", none, none, none⟩, 5⟩)
        (some (RawSlot.json ⟨some "AAA", some "ver", some 0⟩))
        [⟨"https://app", "/cb", [("code", "abc"), ("state", "BBB")]⟩]) 100
        ExchangeResult.failure).exchangeCalls = [] ∧
    (processCallbackAndSettle (initAppState
        (some ⟨"tok", ⟨"u1", "e", none, none, none⟩, 5⟩)
        (some (RawSlot.json ⟨some "AAA", some "ver", some 0⟩))
        [⟨"https://app", "/cb", [("code", "abc"), ("state", "BBB")]⟩]) 100
        ExchangeResult.failure).events
      = [AuthEvent.ready (some ⟨"u1", "e", none, none, none⟩)] ∧
    (processCallbackAndSettle (initAppState
        (some ⟨"tok", ⟨"u1", "e", none, none, none⟩, 5⟩)
        (some (RawSlot.json ⟨some "AAA", some "ver", some 0⟩))
        [⟨"https://app", "/cb", [("code", "abc"), ("state", "BBB")]⟩]) 100
        ExchangeResult.failure).events
      ≠ [AuthEvent.ready none] := by decide

/-- C1 witness: with no prior session, a state-mismatch callback clears
the proof, issues no exchange request, and `ready` carries no user. -/
theorem handleCallback_state_mismatch_witness :
    (processCallbackAndSettle (initAppState none
        (some (RawSlot.json ⟨some "AAA", some "ver", some 0⟩))
        [⟨"https://app", "/cb", [("code", "abc"), ("state", "BBB")]⟩]) 100
        ExchangeResult.failure).pkceSlot = none ∧
    (processCallbackAndSettle (initAppState none
        (some (RawSlot.json ⟨some "AAA", some "ver", some 0⟩))
        [⟨"https://app", "/cb", [("code", "abc"), ("state", "BBB")]⟩]) 100
        ExchangeResult.failure).exchangeCalls = [] ∧
    (processCallbackAndSettle (initAppState none
        (some (RawSlot.json ⟨some "AAA", some "ver", some 0⟩))
        [⟨"https://app", "/cb", [("code", "abc"), ("state", "BBB")]⟩]) 100
        ExchangeResult.failure).events = [AuthEvent.ready none] := by
  obtain ⟨h1, h2, h3, h4⟩ := handleCallback_state_mismatch
    (initAppState none
      (some (RawSlot.json ⟨some "AAA", some "ver", some 0⟩))
      [⟨"https://app", "/cb", [("code", "abc"), ("state", "BBB")]⟩]) 100
    ExchangeResult.failure "abc" ⟨"AAA", "ver"⟩
    (some (RawSlot.json ⟨some "AAA", some "ver", some 0⟩))
    (by rfl) (by rfl) (by decide)
  exact ⟨h1, h2, by simpa [initAppState] using h4⟩

/-! ## C5 — exchange failure during callback processing -/

/-- C5 as amended: when the persisted state matches but the token
exchange fails, the proof slot is cleared (after the exchange request was
issued) and the flow settles with the `ready` signal carrying the
in-memory user as it was before the callback — no user only when no
session had been hydrated; the durable session slot is untouched. -/
theorem handleCallback_exchange_failure (st : AppState) (now : Int)
    (c : String) (pkce : RetrievedPkce) (slot' : Option RawSlot)
    (hcode : getParam st.currentUrl.query "code" = some c)
    (hretr : retrievePkce st.pkceSlot now = (some pkce, slot'))
    (hmatch : getParam st.currentUrl.query "state" = some pkce.state) :
    (processCallbackAndSettle st now ExchangeResult.failure).pkceSlot = none ∧
    (processCallbackAndSettle st now ExchangeResult.failure).exchangeCalls
      = st.exchangeCalls ++ [(c, pkce.codeVerifier)] ∧
    (processCallbackAndSettle st now ExchangeResult.failure).currentUser
      = st.currentUser ∧
    (processCallbackAndSettle st now ExchangeResult.failure).sessionSlot
      = st.sessionSlot ∧
    (processCallbackAndSettle st now ExchangeResult.failure).events
      = st.events ++ [AuthEvent.ready st.currentUser] := by
  simp [processCallbackAndSettle, handleCallback, hcode, hretr, hmatch,
    clearPkce, AppState.emit]

/-- C5 counterexample: with a prior session hydrated, a failing exchange
still clears the proof, but the `ready` signal carries the hydrated user,
not no user as claimed. -/
theorem handleCallback_exchange_failure_counterexample :
    getParam (initAppState
        (some ⟨"tok", ⟨"u1", "e", none, none, none⟩, 5⟩)
        (some (RawSlot.json ⟨some "AAA", some "ver", some 0⟩))
        [⟨"https://app", "/cb", [("code", "abc"), ("state", "AAA")]⟩]).currentUrl.query "state"
      = some "AAA" ∧
    (processCallbackAndSettle (initAppState
        (some ⟨"tok", ⟨"u1", "e", none, none, none⟩, 5⟩)
        (some (RawSlot.json ⟨some "AAA", some "ver", some 0⟩))
        [⟨"https://app", "/cb", [("code", "abc"), ("state", "AAA")]⟩]) 100
        ExchangeResult.failure).exchangeCalls = [("abc", "ver")] ∧
    (processCallbackAndSettle (initAppState
        (some ⟨"tok", ⟨"u1", "e", none, none, none⟩, 5⟩)
        (some (RawSlot.json ⟨some "AAA", some "ver", some 0⟩))
        [⟨"https://app", "/cb", [("code", "abc"), ("state", "AAA")]⟩]) 100
        ExchangeResult.failure).pkceSlot = none ∧
    (processCallbackAndSettle (initAppState
        (some ⟨"tok", ⟨"u1", "e", none, none, none⟩, 5⟩)
        (some (RawSlot.json ⟨some "AAA", some "ver", some 0⟩))
        [⟨"https://app", "/cb", [("code", "abc"), ("state", "AAA")]⟩]) 100
        ExchangeResult.failure).events
      = [AuthEvent.ready (some ⟨"u1", "e", none, none, none⟩)] ∧
    (processCallbackAndSettle (initAppState
        (some ⟨"tok", ⟨"u1", "e", none, none, none⟩, 5⟩)
        (some (RawSlot.json ⟨some "AAA", some "ver", some 0⟩))
        [⟨"https://app", "/cb", [("code", "abc"), ("state", "AAA")]⟩]) 100
        ExchangeResult.failure).events
      ≠ [AuthEvent.ready none] := by decide

/-- C5 witness: with no prior session, a failing exchange clears the
proof and `ready` carries no user; the exchange request was issued. -/
theorem handleCallback_exchange_failure_witness :
    (processCallbackAndSettle (initAppState none
        (some (RawSlot.json ⟨some "AAA", some "ver", some 0⟩))
        [⟨"https://app", "/cb", [("code", "abc"), ("state", "AAA")]⟩]) 100
        ExchangeResult.failure).pkceSlot = none ∧
    (processCallbackAndSettle (initAppState none
        (some (RawSlot.json ⟨some "AAA", some "ver", some 0⟩))
        [⟨"https://app", "/cb", [("code", "abc"), ("state", "AAA")]⟩]) 100
        ExchangeResult.failure).exchangeCalls = [("abc", "ver")] ∧
    (processCallbackAndSettle (initAppState none
        (some (RawSlot.json ⟨some "AAA", some "ver", some 0⟩))
        [⟨"https://app", "/cb", [("code", "abc"), ("state", "AAA")]⟩]) 100
        ExchangeResult.failure).events = [AuthEvent.ready none] := by
  obtain ⟨h1, h2, h3, h4, h5⟩ := handleCallback_exchange_failure
    (initAppState none
      (some (RawSlot.json ⟨some "AAA", some "ver", some 0⟩))
      [⟨"https://app", "/cb", [("code", "abc"), ("state", "AAA")]⟩]) 100
    "abc" ⟨"AAA", "ver"⟩
    (some (RawSlot.json ⟨some "AAA", some "ver", some 0⟩))
    (by rfl) (by rfl) (by rfl)
  refine ⟨h1, by simpa [initAppState] using h2, by simpa [initAppState] using h5⟩

/-! ## C3 — successful exchange -/

/-- C3: on a callback with a matching persisted proof and a successful
exchange, the in-memory state holds the normalized user, the durable
session slot is written, the proof slot is cleared, the visible URL loses
its query parameters through a replace (history depth unchanged), and the
`signed-in` and `ready` signals both carry that same normalized user. -/
theorem handleCallback_success (st : AppState) (now : Int)
    (tr : TokenResponse) (c : String) (pkce : RetrievedPkce)
    (slot' : Option RawSlot) (u : Url) (rest : List Url)
    (hhist : st.history = u :: rest)
    (hcode : getParam u.query "code" = some c)
    (hretr : retrievePkce st.pkceSlot now = (some pkce, slot'))
    (hmatch : getParam u.query "state" = some pkce.state) :
    (processCallbackAndSettle st now (ExchangeResult.success tr)).currentUser
      = some (extractUser tr) ∧
    (processCallbackAndSettle st now (ExchangeResult.success tr)).currentAccessToken
      = some tr.access_token ∧
    (processCallbackAndSettle st now (ExchangeResult.success tr)).sessionSlot
      = some ⟨tr.access_token, extractUser tr, now⟩ ∧
    (processCallbackAndSettle st now (ExchangeResult.success tr)).pkceSlot = none ∧
    (processCallbackAndSettle st now (ExchangeResult.success tr)).history
      = { u with query := [] } :: rest ∧
    getParam (processCallbackAndSettle st now
      (ExchangeResult.success tr)).currentUrl.query "code" = none ∧
    getParam (processCallbackAndSettle st now
      (ExchangeResult.success tr)).currentUrl.query "state" = none ∧
    (processCallbackAndSettle st now (ExchangeResult.success tr)).history.length
      = st.history.length ∧
    (processCallbackAndSettle st now (ExchangeResult.success tr)).events
      = st.events ++ [AuthEvent.signedIn (extractUser tr),
          AuthEvent.ready (some (extractUser tr))] := by
  have hcur : st.currentUrl = u := by
    simp [AppState.currentUrl, hhist]
  simp only [processCallbackAndSettle, handleCallback, hcur, hcode, hretr,
    hmatch, clearPkce, AppState.emit, AppState.replaceUrl, hhist]
  simp [AppState.currentUrl, getParam, hhist]

/-- C3 witness: a concrete successful callback writes the session, clears
the proof, strips the query, and fires both signals with the normalized
user. -/
theorem handleCallback_success_witness :
    (processCallbackAndSettle (initAppState none
        (some (RawSlot.json ⟨some "AAA", some "ver", some 0⟩))
        [⟨"https://app", "/cb", [("code", "abc"), ("state", "AAA")]⟩]) 100
        (ExchangeResult.success ⟨"at", none,
          ⟨"user_abc", "t@e.com", some "Jane", none, true, none, "2024", "2024"⟩⟩)).sessionSlot
      = some ⟨"at", ⟨"user_abc", "t@e.com", some "Jane", none, none⟩, 100⟩ ∧
    (processCallbackAndSettle (initAppState none
        (some (RawSlot.json ⟨some "AAA", some "ver", some 0⟩))
        [⟨"https://app", "/cb", [("code", "abc"), ("state", "AAA")]⟩]) 100
        (ExchangeResult.success ⟨"at", none,
          ⟨"user_abc", "t@e.com", some "Jane", none, true, none, "2024", "2024"⟩⟩)).events
      = [AuthEvent.signedIn ⟨"user_abc", "t@e.com", some "Jane", none, none⟩,
         AuthEvent.ready (some ⟨"user_abc", "t@e.com", some "Jane", none, none⟩)] ∧
    (processCallbackAndSettle (initAppState none
        (some (RawSlot.json ⟨some "AAA", some "ver", some 0⟩))
        [⟨"https://app", "/cb", [("code", "abc"), ("state", "AAA")]⟩]) 100
        (ExchangeResult.success ⟨"at", none,
          ⟨"user_abc", "t@e.com", some "Jane", none, true, none, "2024", "2024"⟩⟩)).history
      = [⟨"https://app", "/cb", []⟩] := by
  obtain ⟨h1, h2, h3, h4, h5, h6, h7, h8, h9⟩ := handleCallback_success
    (initAppState none
      (some (RawSlot.json ⟨some "AAA", some "ver", some 0⟩))
      [⟨"https://app", "/cb", [("code", "abc"), ("state", "AAA")]⟩]) 100
    ⟨"at", none, ⟨"user_abc", "t@e.com", some "Jane", none, true, none, "2024", "2024"⟩⟩
    "abc" ⟨"AAA", "ver"⟩
    (some (RawSlot.json ⟨some "AAA", some "ver", some 0⟩))
    ⟨"https://app", "/cb", [("code", "abc"), ("state", "AAA")]⟩ []
    (by rfl) (by rfl) (by rfl) (by rfl)
  exact ⟨h3, by simpa [initAppState, extractUser] using h9, h5⟩

/-! ## C2 — generated proof material -/

/-- Every alphabet lookup `randomString` performs lands in the alphabet. -/
theorem pkceChars_getD_mem (b : Nat) :
    (pkceChars[b % pkceChars.length]?).getD 'A' ∈ pkceChars := by
  have h : b % pkceChars.length < pkceChars.length := Nat.mod_lt _ (by decide)
  rw [List.getElem?_eq_getElem h]
  simp

/-- C2: a bundle generated from 64 verifier bytes and 32 state bytes has
a 64-character verifier and a 32-character state, both drawn only from
the unreserved alphabet, and its challenge is the padding-free base64url
encoding of the SHA-256 digest of the verifier's UTF-8 bytes. -/
theorem createPkceBundle_spec (verifierBytes stateBytes : List Nat)
    (hv : verifierBytes.length = 64) (hs : stateBytes.length = 32) :
    (createPkceBundle verifierBytes stateBytes).codeVerifier.length = 64 ∧
    (createPkceBundle verifierBytes stateBytes).state.length = 32 ∧
    (∀ c ∈ (createPkceBundle verifierBytes stateBytes).codeVerifier.toList,
      c ∈ pkceChars) ∧
    (∀ c ∈ (createPkceBundle verifierBytes stateBytes).state.toList,
      c ∈ pkceChars) ∧
    (createPkceBundle verifierBytes stateBytes).codeChallenge
      = base64UrlEncode (sha256 (utf8Bytes
          (createPkceBundle verifierBytes stateBytes).codeVerifier)) := by
  refine ⟨?_, ?_, ?_, ?_, rfl⟩
  · simp [createPkceBundle, randomString, String.length, hv]
  · simp [createPkceBundle, randomString, String.length, hs]
  · intro c hc
    simp [createPkceBundle, randomString, String.toList] at hc
    obtain ⟨b, _, rfl⟩ := hc
    exact pkceChars_getD_mem b
  · intro c hc
    simp [createPkceBundle, randomString, String.toList] at hc
    obtain ⟨b, _, rfl⟩ := hc
    exact pkceChars_getD_mem b

/-- C2 witness: a concrete draw of 64 and 32 bytes satisfies the length
bound. -/
theorem createPkceBundle_spec_witness :
    (List.replicate 64 (0 : Nat)).length = 64 ∧
    (List.replicate 32 (0 : Nat)).length = 32 ∧
    (createPkceBundle (List.replicate 64 0) (List.replicate 32 0)).codeVerifier.length = 64 ∧
    (createPkceBundle (List.replicate 64 0) (List.replicate 32 0)).codeChallenge
      = base64UrlEncode (sha256 (utf8Bytes
          (createPkceBundle (List.replicate 64 0) (List.replicate 32 0)).codeVerifier)) :=
  ⟨by decide, by decide,
   (createPkceBundle_spec (List.replicate 64 0) (List.replicate 32 0)
     (by decide) (by decide)).1,
   (createPkceBundle_spec (List.replicate 64 0) (List.replicate 32 0)
     (by decide) (by decide)).2.2.2.2⟩

/-! ## C8 — claims decoding -/

/-- C8 counterexample: a 3-segment token whose middle segment is valid
base64 of the bare number `42` — not a structured record — decodes to
that number rather than to the claimed "mapping or absent" dichotomy. -/
theorem decodeJwtClaims_counterexample :
    decodeJwtClaims "h.NDI.s" = some (Json.num "42") ∧
    (decodeJwtClaims "h.NDI.s").map Json.isObj = some false := ⟨rfl, rfl⟩

/-- C8 as amended: `decodeJwtClaims` is total (the embedding returns an
`Option`, mirroring the `try/catch` that never lets an exception out); it
yields absent when the token does not split into exactly 3 dot-separated
segments, when base64 decoding of the de-url-ified middle segment fails,
or when the decoded text fails to parse as JSON; when the payload parses
as any JSON value it returns that value — a mapping only for a record
payload, a non-record payload (such as a bare number) being returned
as-is, with a parsed JSON `null` indistinguishable from absent. -/
theorem decodeJwtClaims_spec (token : String) :
    ((jwtSegments token).length ≠ 3 → decodeJwtClaims token = none) ∧
    (∀ mid, (jwtSegments token).getD 1 [] = mid →
      (jwtSegments token).length = 3 →
      (atob (String.mk (mid.map fun c =>
          if c == '-' then '+' else if c == '_' then '/' else c)) = none →
        decodeJwtClaims token = none) ∧
      (∀ bytes, atob (String.mk (mid.map fun c =>
          if c == '-' then '+' else if c == '_' then '/' else c)) = some bytes →
        (jsonParse (String.mk (bytes.map Char.ofNat)) = none →
          decodeJwtClaims token = none) ∧
        (∀ v, jsonParse (String.mk (bytes.map Char.ofNat)) = some v →
          decodeJwtClaims token = if v.isNull then none else some v))) := by
  constructor
  · intro h
    simp [decodeJwtClaims, h]
  · intro mid hmid hlen
    constructor
    · intro hatob
      simp only [decodeJwtClaims]
      rw [if_neg (not_not_intro hlen), hmid, hatob]
    · intro bytes hatob
      constructor
      · intro hparse
        simp only [decodeJwtClaims]
        rw [if_neg (not_not_intro hlen), hmid, hatob]
        simp [hparse]
      · intro v hparse
        simp only [decodeJwtClaims]
        rw [if_neg (not_not_intro hlen), hmid, hatob]
        cases v <;> simp [hparse, Json.isNull]

/-- C8 witness: a two-segment token is malformed and decodes to absent;
a record payload decodes to a mapping. -/
theorem decodeJwtClaims_spec_witness :
    ((jwtSegments "two.parts").length ≠ 3 ∧
      decodeJwtClaims "two.parts" = none) ∧
    (jsonParse (String.mk (([0x7b, 0x22, 0x61, 0x22, 0x3a, 0x31, 0x7d] :
        List Nat).map Char.ofNat))
        = some (Json.obj [("a", Json.num "1")]) ∧
      decodeJwtClaims "h.eyJhIjoxfQ.s" = some (Json.obj [("a", Json.num "1")])) := by
  refine ⟨⟨by decide, (decodeJwtClaims_spec "two.parts").1 (by decide)⟩, rfl, ?_⟩
  have h := (((decodeJwtClaims_spec "h.eyJhIjoxfQ.s").2
    ("eyJhIjoxfQ".toList) rfl (by decide)).2
    [0x7b, 0x22, 0x61, 0x22, 0x3a, 0x31, 0x7d] (by rfl)).2
    (Json.obj [("a", Json.num "1")]) (by rfl)
  simpa [Json.isNull] using h

end AuthKit
